import Mathlib

/-!
Verification development for the `slint_vello` rendering core
(`src/main.rs`).  The data model and operations below are a shallow
embedding of the Rust source: the `VelloRenderer` struct, its
constructor, `create_render_texture`, `resize`, `render` and
`read_texture_data`, the startup scene build, and the per-tick
`BeforeRendering` closure installed in `main`.

Modelling conventions:
* GPU textures are identified by an allocation counter threaded through
  every creating operation; a texture freshly created by the device gets
  the current counter value as its `id`, so distinct allocations have
  distinct ids.
* Machine integers (`u32`) are modelled as `Nat`; the sizes involved are
  bounded far below `2^32` by the device texture-dimension limits, so
  wrap-around never occurs on the modelled quantities.
* `f64` geometry and color data in the scene commands are irrelevant to
  every claim under study (the claims concern the lifecycle of the scene,
  not pixel content), so a scene is a list of command tags recording the
  four draw calls of `add_shapes_to_scene` in order.
* Fallible/effectful boundaries (the vello render backend, the
  `map_async` completion channel, `slint::Image::try_from`) are given as
  explicit outcome parameters of the functions that consume them.
-/

namespace SlintVello

/-- Texture formats that appear in the source (`TextureFormat::Rgba8Unorm`
is the only one used, a second constructor keeps the format claim
non-vacuous). -/
inductive TextureFormat where
  | Rgba8Unorm
  | Bgra8Unorm
deriving DecidableEq

/-- The `wgpu::TextureUsages` bits mentioned by the source. -/
structure TextureUsages where
  render_attachment : Bool
  storage_binding : Bool
  copy_src : Bool
  copy_dst : Bool
deriving DecidableEq

/-- `wgpu::Extent3d`. -/
structure Extent3d where
  width : Nat
  height : Nat
  depth_or_array_layers : Nat
deriving DecidableEq

/-- `wgpu::TextureDimension`. -/
inductive TextureDimension where
  | d1
  | d2
  | d3
deriving DecidableEq

/-- A GPU texture as described by the `TextureDescriptor` handed to
`device.create_texture`.  `id` is the allocation identity: the host
receives this handle, and two textures returned by distinct
`create_texture` calls have distinct ids. -/
structure Texture where
  id : Nat
  size : Extent3d
  mip_level_count : Nat
  sample_count : Nat
  dimension : TextureDimension
  format : TextureFormat
  usage : TextureUsages
deriving DecidableEq

/-- The four draw calls issued by `add_shapes_to_scene` (main.rs 138-172),
abstracted to tags: the `f64` geometry and colors play no role in any
lifecycle claim. -/
inductive SceneCmd where
  | strokeRoundedRect
  | fillCircle
  | fillEllipse
  | strokeLine
deriving DecidableEq

/-- A vello `Scene` is, for lifecycle purposes, the ordered list of draw
commands recorded since the last reset. -/
abbrev Scene := List SceneCmd

/-- `Scene::reset` (called at main.rs line 203): empties the scene. -/
def Scene.reset (_s : Scene) : Scene := []

/-- `add_shapes_to_scene` (main.rs 138-172): appends the stroked rounded
rectangle, filled circle, filled ellipse and stroked line, in source
order. -/
def add_shapes_to_scene (scene : Scene) : Scene :=
  scene ++ [SceneCmd.strokeRoundedRect, SceneCmd.fillCircle,
            SceneCmd.fillEllipse, SceneCmd.strokeLine]

/-- The `VelloRenderer` struct (main.rs 16-24).  `context`, `device_id`
and the vello `renderer` carry no state any claim depends on beyond the
allocation counter, which is threaded separately. -/
structure VelloRenderer where
  scene : Scene
  render_texture : Texture
  width : Nat
  height : Nat
deriving DecidableEq

/-- `VelloRenderer::create_render_texture` (main.rs 47-64): a 2D texture
of the requested size, mip count 1, sample count 1, `Rgba8Unorm`, usage
`RENDER_ATTACHMENT | STORAGE_BINDING | COPY_SRC`.  `alloc` is the device
allocation counter supplying the fresh id. -/
def create_render_texture (alloc : Nat) (width height : Nat) : Texture :=
  { id := alloc
    size := { width := width, height := height, depth_or_array_layers := 1 }
    mip_level_count := 1
    sample_count := 1
    dimension := TextureDimension.d2
    format := TextureFormat.Rgba8Unorm
    usage := { render_attachment := true, storage_binding := true,
               copy_src := true, copy_dst := false } }

/-- Success path of `VelloRenderer::new` (main.rs 27-46): fresh empty
scene (`Scene::new()`), a render texture of the requested size, stored
width and height.  Returns the renderer together with the advanced
allocation counter. -/
def VelloRenderer.new (alloc : Nat) (width height : Nat) :
    VelloRenderer × Nat :=
  ({ scene := []
     render_texture := create_render_texture alloc width height
     width := width
     height := height }, alloc + 1)

/-- `VelloRenderer::new` with its two failure exits (main.rs 29-35): no
compatible device makes `new` return the `anyhow` error that `main`
propagates with `?`; a renderer-creation failure fires the
`expect("Couldn't create renderer")` panic.  Both terminate the process
at Setup. -/
def VelloRenderer.newResult (deviceFound rendererInitOk : Bool)
    (alloc : Nat) (width height : Nat) :
    Except String (VelloRenderer × Nat) :=
  if deviceFound then
    if rendererInitOk then Except.ok (VelloRenderer.new alloc width height)
    else Except.error "Couldn't create renderer"
  else Except.error "No compatible device found"

/-- `VelloRenderer::resize` (main.rs 65-73): no-op when the stored size
already equals the request, otherwise store the new size and replace the
texture with a freshly created one. -/
def VelloRenderer.resize (r : VelloRenderer) (alloc : Nat)
    (width height : Nat) : VelloRenderer × Nat :=
  if r.width = width ∧ r.height = height then (r, alloc)
  else
    ({ r with
       width := width
       height := height
       render_texture := create_render_texture alloc width height },
     alloc + 1)

/-- The `RenderParams` built by `VelloRenderer::render` (main.rs 81-86).
The constant `base_color` and `AaConfig::Area` are display constants with
no bearing on any claim, so only the size fields are recorded. -/
structure RenderParams where
  width : Nat
  height : Nat
deriving DecidableEq

/-- The render parameters `render` passes to `render_to_texture`: taken
from the renderer's stored `width` and `height` fields (main.rs 83-84). -/
def VelloRenderer.renderParams (r : VelloRenderer) : RenderParams :=
  { width := r.width, height := r.height }

/-- `VelloRenderer::render` (main.rs 74-90).  The vello backend outcome is
the parameter: `none` is success, `some e` is a backend error, which
`render` wraps with `map_err` into the message of line 89.  The renderer
fields (`scene`, `render_texture`, `width`, `height`) are not written by
`render`, which the model reflects by not returning a state. -/
def VelloRenderer.render (_r : VelloRenderer) (backend : Option String) :
    Except String Unit :=
  match backend with
  | some e => Except.error ("Error rendering to texture: " ++ e)
  | none => Except.ok ()

/-- Rust `u32::next_multiple_of`: the smallest multiple of `rhs` that is
greater than or equal to `self` (source form: `self % rhs` zero keeps
`self`, otherwise add `rhs - self % rhs`). -/
def nextMultipleOf (a rhs : Nat) : Nat :=
  if a % rhs = 0 then a else a + (rhs - a % rhs)

/-- `padded_byte_width` of `read_texture_data` (main.rs 95):
`(width * 4).next_multiple_of(256)`. -/
def paddedByteWidth (width : Nat) : Nat :=
  nextMultipleOf (width * 4) 256

/-- The GPU commands `read_texture_data` records before waiting on the
map (main.rs 96-117): staging-buffer size, and the
`TexelCopyBufferLayout` and extent of the texture-to-buffer copy. -/
structure ReadbackOps where
  bufferSize : Nat
  offsetBytes : Nat
  bytesPerRow : Option Nat
  rowsPerImage : Option Nat
  copyExtent : Extent3d
deriving DecidableEq

/-- The buffer allocation and copy parameters issued by
`read_texture_data` (main.rs 95-117): buffer of `padded_byte_width *
height` bytes, copy with `offset 0`, `bytes_per_row
Some(padded_byte_width)`, `rows_per_image None`, extent
`render_texture.size()`. -/
def VelloRenderer.readbackOps (r : VelloRenderer) : ReadbackOps :=
  { bufferSize := paddedByteWidth r.width * r.height
    offsetBytes := 0
    bytesPerRow := some (paddedByteWidth r.width)
    rowsPerImage := none
    copyExtent := r.render_texture.size }

/-- Rust slice `chunks(n)`: fuel-bounded structural recursion (the list
length is always enough fuel for positive `n`, which is the only way the
source calls it: `n` is `padded_byte_width ≥ 256`). -/
def chunksGo (n : Nat) : Nat → List Nat → List (List Nat)
  | 0, _ => []
  | _ + 1, [] => []
  | fuel + 1, x :: xs =>
      (x :: xs).take n :: chunksGo n fuel ((x :: xs).drop n)

/-- `data.chunks(n)` on the mapped staging data (main.rs 129). -/
def chunks (n : Nat) (l : List Nat) : List (List Nat) :=
  chunksGo n l.length l

/-- The packing loop of `read_texture_data` (main.rs 129-131): for each
chunk, append its first `rowBytes` bytes
(`image_data.extend_from_slice(&row[..(self.width * 4) as usize])`). -/
def stripRowsGo (rowBytes : Nat) : List (List Nat) → List Nat
  | [] => []
  | row :: rest => row.take rowBytes ++ stripRowsGo rowBytes rest

/-- Outcome of `block_on_wgpu(device, receiver.receive())` on the oneshot
`map_async` channel (main.rs 120-126): either the channel closed before a
value was delivered (`None`), or the buffer-mapping result was
delivered. -/
inductive MapOutcome where
  | channelClosed
  | delivered (result : Except String Unit)

/-- `VelloRenderer::read_texture_data` (main.rs 91-135) after submission:
`mapped` is the channel outcome, `data` the mapped staging-buffer
contents.  A closed channel hits the `bail!` of line 125; a delivered
error is re-raised by `recv_result?` on line 123; on success the padded
rows are stripped to `width * 4` bytes each. -/
def VelloRenderer.read_texture_data (r : VelloRenderer)
    (mapped : MapOutcome) (data : List Nat) : Except String (List Nat) :=
  match mapped with
  | MapOutcome.channelClosed =>
      Except.error "GPU readback channel was closed."
  | MapOutcome.delivered (Except.error e) => Except.error e
  | MapOutcome.delivered (Except.ok _) =>
      Except.ok (stripRowsGo (r.width * 4) (chunks (paddedByteWidth r.width) data))

/-- Whether the CPU-readback hand-off is compiled in: in `main` the
readback path (main.rs 225-233) is commented out and the direct texture
hand-off of lines 234-235 is used, so the readback fallback is
disabled. -/
def readback_enabled : Bool := false

/-- The mutable state captured by the `BeforeRendering` closure in `main`:
the renderer behind the `Rc<RefCell<..>>`, the device allocation counter,
the image last handed to `app.set_texture` (by texture id), and
`frame_count`. -/
structure AppState where
  renderer : VelloRenderer
  alloc : Nat
  displayed : Option Nat
  frame_count : Nat
deriving DecidableEq

/-- What one `BeforeRendering` invocation did. -/
inductive TickResult where
  | skipped
  | panicked (msg : String)
  | completed (handle : Nat)
deriving DecidableEq

/-- The `BeforeRendering` arm of the rendering notifier (main.rs 210-248),
on the path where `app_weak.upgrade()` succeeds (the failing upgrade only
skips the renderer block).  `renderBackend` is the vello backend outcome
for this tick, `imageConvertOk` the outcome of
`slint::Image::try_from(texture)`, and `secondElapsed` whether a wall
second has passed for the FPS counter (main.rs 243).  Size 0 in either
dimension returns early (line 220) touching nothing; a render error fires
the `expect("Vello rendering failed")` panic (line 223); a conversion
failure fires the `unwrap` panic (line 235). -/
def beforeRendering (renderBackend : Option String) (imageConvertOk : Bool)
    (secondElapsed : Bool) (s : AppState) (new_width new_height : Nat) :
    AppState × TickResult :=
  if 0 < new_width ∧ 0 < new_height then
    let resized := s.renderer.resize s.alloc new_width new_height
    let r1 := resized.1
    let a1 := resized.2
    match r1.render renderBackend with
    | Except.error _ =>
        ({ s with renderer := r1, alloc := a1 },
         TickResult.panicked "Vello rendering failed")
    | Except.ok _ =>
        if imageConvertOk then
          ({ s with
             renderer := r1
             alloc := a1
             displayed := some r1.render_texture.id
             frame_count := if secondElapsed then 0 else s.frame_count + 1 },
           TickResult.completed r1.render_texture.id)
        else
          ({ s with renderer := r1, alloc := a1 },
           TickResult.panicked "Image try_from unwrap failed")
  else
    (s, TickResult.skipped)

/-- The state right after `main`'s setup (main.rs 186-205): renderer
constructed at the clamped size, scene reset and populated once by
`add_shapes_to_scene`, `frame_count` zero, nothing displayed yet. -/
def initialAppState (width height : Nat) : AppState :=
  let rn := VelloRenderer.new 0 width height
  { renderer := { rn.1 with scene := add_shapes_to_scene (Scene.reset rn.1.scene) }
    alloc := rn.2
    displayed := none
    frame_count := 0 }

end SlintVello

namespace SlintVello

/-! ## Helper lemmas -/

theorem resize_dims (r : VelloRenderer) (alloc w h : Nat) :
    (r.resize alloc w h).1.width = w ∧ (r.resize alloc w h).1.height = h := by
  unfold VelloRenderer.resize
  split
  next hc => exact ⟨hc.1, hc.2⟩
  next => exact ⟨rfl, rfl⟩

theorem resize_noop (r : VelloRenderer) (alloc w h : Nat)
    (hw : r.width = w) (hh : r.height = h) : r.resize alloc w h = (r, alloc) := by
  unfold VelloRenderer.resize
  rw [if_pos ⟨hw, hh⟩]

theorem resize_scene (r : VelloRenderer) (alloc w h : Nat) :
    (r.resize alloc w h).1.scene = r.scene := by
  unfold VelloRenderer.resize
  split <;> rfl

/-- On a successful tick (nonzero size, render succeeds, image conversion
succeeds) the closure resizes, renders, hands the current texture id to
the host and bumps the FPS counter. -/
theorem beforeRendering_ok (se : Bool) (s : AppState) (w h : Nat)
    (hw : 0 < w) (hh : 0 < h) :
    beforeRendering none true se s w h =
      ({ renderer := (s.renderer.resize s.alloc w h).1
         alloc := (s.renderer.resize s.alloc w h).2
         displayed := some (s.renderer.resize s.alloc w h).1.render_texture.id
         frame_count := if se then 0 else s.frame_count + 1 },
       TickResult.completed (s.renderer.resize s.alloc w h).1.render_texture.id) := by
  unfold beforeRendering
  rw [if_pos ⟨hw, hh⟩]
  rfl

/-- Whatever the tick outcome, the renderer afterwards is either untouched
(zero-size skip) or the result of the resize call. -/
theorem beforeRendering_renderer (rb : Option String) (ok se : Bool)
    (s : AppState) (w h : Nat) :
    (beforeRendering rb ok se s w h).1.renderer = s.renderer ∨
    (beforeRendering rb ok se s w h).1.renderer =
      (s.renderer.resize s.alloc w h).1 := by
  unfold beforeRendering
  split
  · cases rb with
    | some e => exact Or.inr rfl
    | none =>
      cases ok with
      | false => exact Or.inr rfl
      | true => exact Or.inr rfl
  · exact Or.inl rfl

theorem beforeRendering_scene (rb : Option String) (ok se : Bool)
    (s : AppState) (w h : Nat) :
    (beforeRendering rb ok se s w h).1.renderer.scene = s.renderer.scene := by
  rcases beforeRendering_renderer rb ok se s w h with hc | hc
  · rw [hc]
  · rw [hc, resize_scene]

/-! ## C1 -/

/-- C1 counterexample: running the per-tick closure twice from the state
`main` sets up, at an unchanged requested size 640x480, hands the host the
same texture handle (id 0) on both calls — the handle on call k IS
identical to the handle on call k-1, because the code keeps a single
render texture rather than two alternating surfaces. -/
theorem double_buffer_claim_counterexample :
    (beforeRendering none true false (initialAppState 640 480) 640 480).2 =
      TickResult.completed 0 ∧
    (beforeRendering none true false
        (beforeRendering none true false (initialAppState 640 480) 640 480).1
        640 480).2 = TickResult.completed 0 := by
  decide

/-- C1 (amended): the renderer is single-buffered.  On every successful
tick the handle handed to the host is the id of the one render texture,
and two consecutive ticks at the same (nonzero) requested size hand the
host the identical handle; the surface written in a call is exactly the
surface returned in the previous call. -/
theorem single_buffer_handle_stable (s : AppState) (w h : Nat)
    (hw : 0 < w) (hh : 0 < h) :
    (beforeRendering none true false s w h).2 =
      TickResult.completed
        ((beforeRendering none true false s w h).1.renderer.render_texture.id) ∧
    (beforeRendering none true false
        ((beforeRendering none true false s w h).1) w h).2 =
      (beforeRendering none true false s w h).2 := by
  rw [beforeRendering_ok false s w h hw hh]
  constructor
  · rfl
  · rw [beforeRendering_ok false _ w h hw hh]
    have hd := resize_dims s.renderer s.alloc w h
    rw [resize_noop (s.renderer.resize s.alloc w h).1 _ w h hd.1 hd.2]

/-- C1 witness for the amended theorem, at requested size 800x600 from the
startup state. -/
theorem single_buffer_handle_stable_witness :
    0 < 800 ∧ 0 < 600 ∧
    ((beforeRendering none true false (initialAppState 800 600) 800 600).2 =
      TickResult.completed
        ((beforeRendering none true false (initialAppState 800 600) 800 600).1.renderer.render_texture.id) ∧
    (beforeRendering none true false
        ((beforeRendering none true false (initialAppState 800 600) 800 600).1) 800 600).2 =
      (beforeRendering none true false (initialAppState 800 600) 800 600).2) :=
  ⟨by decide, by decide,
   single_buffer_handle_stable (initialAppState 800 600) 800 600
     (by decide) (by decide)⟩

/-! ## C2 -/

/-- A state whose scene contains a marker command left over from an
earlier tick: if the tick cleared and rebuilt the scene, the marker could
not survive a successful tick. -/
def staleState : AppState :=
  { renderer :=
      { scene := [SceneCmd.strokeLine]
        render_texture := create_render_texture 0 640 480
        width := 640
        height := 480 }
    alloc := 1
    displayed := none
    frame_count := 0 }

/-- C2 counterexample: a successful tick at 640x480 leaves a stale
one-command scene exactly as it was — it is neither cleared nor
repopulated by `add_shapes_to_scene` within the tick, so the scene does
hold state across ticks. -/
theorem scene_rebuilt_counterexample :
    (beforeRendering none true false staleState 640 480).1.renderer.scene =
      [SceneCmd.strokeLine] ∧
    [SceneCmd.strokeLine] ≠
      add_shapes_to_scene (Scene.reset [SceneCmd.strokeLine]) := by
  decide

/-- C2 (amended): the scene is reset and populated exactly once, at
startup before the rendering notifier is installed (main.rs 201-205), and
every per-tick invocation leaves the scene untouched, whatever the
requested size and backend outcomes — the same scene is re-rendered each
tick and persists across ticks. -/
theorem scene_built_once_and_persistent (rb : Option String) (ok se : Bool)
    (s : AppState) (w h wi hi : Nat) :
    (initialAppState wi hi).renderer.scene =
      add_shapes_to_scene (Scene.reset []) ∧
    (beforeRendering rb ok se s w h).1.renderer.scene = s.renderer.scene :=
  ⟨rfl, beforeRendering_scene rb ok se s w h⟩

/-! ## C3 -/

/-- C3: when either requested dimension is 0 the tick returns early:
no resize, no render, no image hand-off, no counter update — the whole
closure state (renderer texture, width, height, scene, allocation
counter, displayed image, frame count) is returned unchanged. -/
theorem size_zero_skip (rb : Option String) (ok se : Bool) (s : AppState)
    (w h : Nat) (hzero : w = 0 ∨ h = 0) :
    beforeRendering rb ok se s w h = (s, TickResult.skipped) := by
  unfold beforeRendering
  rw [if_neg (by omega : ¬(0 < w ∧ 0 < h))]

/-- C3 witness: requested size (0, 5) from the startup state. -/
theorem size_zero_skip_witness :
    (0 = 0 ∨ 5 = 0) ∧
    beforeRendering none true false (initialAppState 640 480) 0 5 =
      (initialAppState 640 480, TickResult.skipped) :=
  ⟨Or.inl rfl,
   size_zero_skip none true false (initialAppState 640 480) 0 5 (Or.inl rfl)⟩

/-! ## C4 -/

/-- C4 counterexample: a per-tick failure terminates the process.  A
render-backend error on an ordinary 640x480 tick hits
`.expect("Vello rendering failed")` and panics, and an image-conversion
failure hits the `unwrap` of `slint::Image::try_from` and panics — neither
is caught at the tick boundary. -/
theorem tick_failure_counterexample :
    (beforeRendering (some "backend error") true false
        (initialAppState 640 480) 640 480).2 =
      TickResult.panicked "Vello rendering failed" ∧
    (beforeRendering none false false
        (initialAppState 640 480) 640 480).2 =
      TickResult.panicked "Image try_from unwrap failed" := by
  decide

/-- C4 (amended): Setup-time failures terminate the process (missing
device propagates out of `main`, renderer-init failure panics via
`expect`), and per-tick failures ALSO terminate it: on any tick that
reaches the render step, a render failure fires the
`expect("Vello rendering failed")` panic and an image hand-off failure
fires the `unwrap` panic; no per-tick failure is caught at the tick
boundary. -/
theorem tick_failures_panic (e : String) (ok se : Bool) (s : AppState)
    (w h : Nat) (hw : 0 < w) (hh : 0 < h) :
    (beforeRendering (some e) ok se s w h).2 =
      TickResult.panicked "Vello rendering failed" ∧
    (beforeRendering none false se s w h).2 =
      TickResult.panicked "Image try_from unwrap failed" ∧
    VelloRenderer.newResult false true 0 w h =
      Except.error "No compatible device found" ∧
    VelloRenderer.newResult true false 0 w h =
      Except.error "Couldn't create renderer" := by
  refine ⟨?_, ?_, rfl, rfl⟩
  · unfold beforeRendering
    rw [if_pos ⟨hw, hh⟩]
    rfl
  · unfold beforeRendering
    rw [if_pos ⟨hw, hh⟩]
    rfl

/-- C4 witness for the amended theorem at 640x480. -/
theorem tick_failures_panic_witness :
    0 < 640 ∧ 0 < 480 ∧
    ((beforeRendering (some "device lost") true false
        (initialAppState 640 480) 640 480).2 =
      TickResult.panicked "Vello rendering failed" ∧
    (beforeRendering none false false (initialAppState 640 480) 640 480).2 =
      TickResult.panicked "Image try_from unwrap failed" ∧
    VelloRenderer.newResult false true 0 640 480 =
      Except.error "No compatible device found" ∧
    VelloRenderer.newResult true false 0 640 480 =
      Except.error "Couldn't create renderer") :=
  ⟨by decide, by decide,
   tick_failures_panic "device lost" true false (initialAppState 640 480)
     640 480 (by decide) (by decide)⟩

/-! ## C6 -/

/-- C6 counterexample: `read_texture_data` also fails when the completion
signal IS delivered but carries a mapping error — `recv_result?` re-raises
it (main.rs 123) — so failure is not equivalent to the channel being
closed before completion. -/
theorem readback_abort_iff_counterexample :
    (VelloRenderer.new 0 1 1).1.read_texture_data
        (MapOutcome.delivered (Except.error "buffer map failed")) [] =
      Except.error "buffer map failed" ∧
    MapOutcome.delivered (Except.error "buffer map failed") ≠
      MapOutcome.channelClosed :=
  ⟨rfl, by simp⟩

/-- C6 (amended): `read_texture_data` succeeds if and only if the one-shot
completion signal is delivered with a successful mapping result; it fails
both when the channel is closed before completion (the `bail!` of line
125) and when the delivered result is a mapping error (line 123), and on
failure no image data is returned. -/
theorem readback_ok_iff_delivered_ok (r : VelloRenderer)
    (mapped : MapOutcome) (data : List Nat) :
    (∃ out, r.read_texture_data mapped data = Except.ok out) ↔
      mapped = MapOutcome.delivered (Except.ok ()) := by
  cases mapped with
  | channelClosed => simp [VelloRenderer.read_texture_data]
  | delivered res =>
    cases res with
    | error e => simp [VelloRenderer.read_texture_data]
    | ok u => cases u; simp [VelloRenderer.read_texture_data]

/-! ## C9 -/

/-- C9 counterexample: the readback fallback is disabled in `main` (the
GPU-to-CPU hand-off of lines 225-233 is commented out), yet every created
texture still carries `COPY_SRC` in its usage flags — copy-source usage is
not conditional on readback being enabled. -/
theorem copy_src_always_counterexample :
    readback_enabled = false ∧
    (create_render_texture 0 1 1).usage.copy_src = true := by
  decide

/-- C9 (amended): every texture this core creates — at construction, and
on every reallocation by `resize` — is 2D with mip level count 1, sample
count 1, RGBA8-unorm format, and usage render-attachment, storage-binding
and copy-source, the copy-source bit being included unconditionally
(readback enabled or not). -/
theorem texture_creation_params (alloc w h : Nat) (r : VelloRenderer) :
    (create_render_texture alloc w h).dimension = TextureDimension.d2 ∧
    (create_render_texture alloc w h).mip_level_count = 1 ∧
    (create_render_texture alloc w h).sample_count = 1 ∧
    (create_render_texture alloc w h).format = TextureFormat.Rgba8Unorm ∧
    (create_render_texture alloc w h).usage =
      { render_attachment := true, storage_binding := true,
        copy_src := true, copy_dst := false } ∧
    (create_render_texture alloc w h).size =
      { width := w, height := h, depth_or_array_layers := 1 } ∧
    ((r.resize alloc w h).1.render_texture = r.render_texture ∨
      (r.resize alloc w h).1.render_texture = create_render_texture alloc w h) ∧
    (VelloRenderer.new alloc w h).1.render_texture =
      create_render_texture alloc w h := by
  refine ⟨rfl, rfl, rfl, rfl, rfl, rfl, ?_, rfl⟩
  unfold VelloRenderer.resize
  split
  · exact Or.inl rfl
  · exact Or.inr rfl

end SlintVello

namespace SlintVello

/-! ## C7 -/

/-- C7: for w, h at least 1, after `resize(w,h)` the stored dimensions are
exactly (w,h); if the request equals the current size the call is a
complete no-op (same renderer value, same texture, counter untouched);
otherwise the texture is replaced by a freshly allocated one (its id is
the current allocation counter, distinct from the id of every previously
allocated texture) while the scene is untouched. -/
theorem resize_semantics (r : VelloRenderer) (alloc w h : Nat)
    (hid : r.render_texture.id < alloc) (hw : 1 ≤ w) (hh : 1 ≤ h) :
    ((r.resize alloc w h).1.width = w ∧ (r.resize alloc w h).1.height = h) ∧
    (r.width = w ∧ r.height = h → r.resize alloc w h = (r, alloc)) ∧
    (¬(r.width = w ∧ r.height = h) →
      (r.resize alloc w h).1.render_texture = create_render_texture alloc w h ∧
      (r.resize alloc w h).1.render_texture.id ≠ r.render_texture.id ∧
      (r.resize alloc w h).1.scene = r.scene ∧
      (r.resize alloc w h).2 = alloc + 1) := by
  refine ⟨resize_dims r alloc w h, fun hc => resize_noop r alloc w h hc.1 hc.2, ?_⟩
  intro hne
  unfold VelloRenderer.resize
  rw [if_neg hne]
  exact ⟨rfl, by simpa [create_render_texture] using Nat.ne_of_gt hid, rfl, rfl⟩

/-- C7 witness: a consistent 640x480 renderer (texture id 0, counter 1)
resized to 320x200. -/
theorem resize_semantics_witness :
    ((VelloRenderer.new 0 640 480).1.render_texture.id < 1 ∧ 1 ≤ 320 ∧ 1 ≤ 200) ∧
    ((((VelloRenderer.new 0 640 480).1.resize 1 320 200).1.width = 320 ∧
      ((VelloRenderer.new 0 640 480).1.resize 1 320 200).1.height = 200) ∧
    ((VelloRenderer.new 0 640 480).1.width = 320 ∧
        (VelloRenderer.new 0 640 480).1.height = 200 →
      (VelloRenderer.new 0 640 480).1.resize 1 320 200 =
        ((VelloRenderer.new 0 640 480).1, 1)) ∧
    (¬((VelloRenderer.new 0 640 480).1.width = 320 ∧
        (VelloRenderer.new 0 640 480).1.height = 200) →
      ((VelloRenderer.new 0 640 480).1.resize 1 320 200).1.render_texture =
        create_render_texture 1 320 200 ∧
      ((VelloRenderer.new 0 640 480).1.resize 1 320 200).1.render_texture.id ≠
        (VelloRenderer.new 0 640 480).1.render_texture.id ∧
      ((VelloRenderer.new 0 640 480).1.resize 1 320 200).1.scene =
        (VelloRenderer.new 0 640 480).1.scene ∧
      ((VelloRenderer.new 0 640 480).1.resize 1 320 200).2 = 1 + 1)) :=
  ⟨⟨by decide, by decide, by decide⟩,
   resize_semantics (VelloRenderer.new 0 640 480).1 1 320 200
     (by decide) (by decide) (by decide)⟩

/-! ## C8 -/

/-- The spec side of the staging-row computation: `ceil(n, 256) * 256`
expressed with the usual ceiling-division formula, independent of the
source's `next_multiple_of` formulation. -/
def ceilToRowAlignment (n : Nat) : Nat := ((n + 255) / 256) * 256

/-- C8: the staging buffer allocated by `read_texture_data` has size
exactly (width*4 rounded up to the next multiple of the 256-byte row
alignment) * height, and the texture-to-buffer copy names exactly that
padded value as its `bytes_per_row`; the padded value really is the least
multiple of 256 that is at least width*4. -/
theorem staging_buffer_sizing (r : VelloRenderer)
    (hw : 1 ≤ r.width) (hh : 1 ≤ r.height) :
    r.readbackOps.bufferSize = ceilToRowAlignment (r.width * 4) * r.height ∧
    r.readbackOps.bytesPerRow = some (ceilToRowAlignment (r.width * 4)) ∧
    r.width * 4 ≤ paddedByteWidth r.width ∧
    paddedByteWidth r.width < r.width * 4 + 256 ∧
    256 ∣ paddedByteWidth r.width := by
  have key : paddedByteWidth r.width = ceilToRowAlignment (r.width * 4) := by
    unfold paddedByteWidth nextMultipleOf ceilToRowAlignment
    split <;> omega
  refine ⟨?_, ?_, ?_, ?_, ?_⟩
  · show paddedByteWidth r.width * r.height = _
    rw [key]
  · show some (paddedByteWidth r.width) = _
    rw [key]
  · unfold paddedByteWidth nextMultipleOf
    split <;> omega
  · unfold paddedByteWidth nextMultipleOf
    split <;> omega
  · unfold paddedByteWidth nextMultipleOf
    split <;> omega

/-- C8 witness: a 3x2 renderer; the padded row is 256 bytes. -/
theorem staging_buffer_sizing_witness :
    (1 ≤ (VelloRenderer.new 0 3 2).1.width ∧
      1 ≤ (VelloRenderer.new 0 3 2).1.height) ∧
    ((VelloRenderer.new 0 3 2).1.readbackOps.bufferSize =
        ceilToRowAlignment ((VelloRenderer.new 0 3 2).1.width * 4) *
          (VelloRenderer.new 0 3 2).1.height ∧
    (VelloRenderer.new 0 3 2).1.readbackOps.bytesPerRow =
        some (ceilToRowAlignment ((VelloRenderer.new 0 3 2).1.width * 4)) ∧
    (VelloRenderer.new 0 3 2).1.width * 4 ≤
        paddedByteWidth (VelloRenderer.new 0 3 2).1.width ∧
    paddedByteWidth (VelloRenderer.new 0 3 2).1.width <
        (VelloRenderer.new 0 3 2).1.width * 4 + 256 ∧
    256 ∣ paddedByteWidth (VelloRenderer.new 0 3 2).1.width) :=
  ⟨⟨by decide, by decide⟩,
   staging_buffer_sizing (VelloRenderer.new 0 3 2).1 (by decide) (by decide)⟩

/-! ## C10 -/

/-- The implicit size-consistency invariant: the GPU texture owned by the
renderer has exactly the stored `width` and `height`. -/
def VelloRenderer.sizeConsistent (r : VelloRenderer) : Prop :=
  r.render_texture.size.width = r.width ∧
  r.render_texture.size.height = r.height

theorem resize_sizeConsistent (r : VelloRenderer) (alloc w h : Nat)
    (hr : r.sizeConsistent) : (r.resize alloc w h).1.sizeConsistent := by
  unfold VelloRenderer.resize
  split
  · exact hr
  · exact ⟨rfl, rfl⟩

/-- C10: size consistency holds after construction, is preserved by
`resize` and by the whole per-tick closure, and under it `render` and
`read_texture_data` draw their render parameters, row pitch, buffer size
and copy extent from numbers equal to the texture's actual dimensions, so
no frame is rendered or read at a size differing from the texture's. -/
theorem size_consistency_invariant (alloc w h : Nat) (r : VelloRenderer)
    (s : AppState) (rb : Option String) (ok se : Bool)
    (hr : r.sizeConsistent) (hs : s.renderer.sizeConsistent) :
    (VelloRenderer.new alloc w h).1.sizeConsistent ∧
    (r.resize alloc w h).1.sizeConsistent ∧
    r.renderParams.width = r.render_texture.size.width ∧
    r.renderParams.height = r.render_texture.size.height ∧
    r.readbackOps.copyExtent = r.render_texture.size ∧
    r.readbackOps.bytesPerRow =
      some (paddedByteWidth r.render_texture.size.width) ∧
    r.readbackOps.bufferSize =
      paddedByteWidth r.render_texture.size.width *
        r.render_texture.size.height ∧
    (beforeRendering rb ok se s w h).1.renderer.sizeConsistent := by
  obtain ⟨h1, h2⟩ := hr
  refine ⟨⟨rfl, rfl⟩, resize_sizeConsistent r alloc w h ⟨h1, h2⟩,
    h1.symm, h2.symm, rfl, ?_, ?_, ?_⟩
  · show some (paddedByteWidth r.width) = _
    rw [h1]
  · show paddedByteWidth r.width * r.height = _
    rw [h1, h2]
  · rcases beforeRendering_renderer rb ok se s w h with hc | hc
    · rw [hc]; exact hs
    · rw [hc]; exact resize_sizeConsistent _ _ _ _ hs

/-- C10 witness: the startup state at 640x480, a resize request to
320x200, with a render-success tick. -/
theorem size_consistency_invariant_witness :
    ((VelloRenderer.new 0 640 480).1.sizeConsistent ∧
      (initialAppState 640 480).renderer.sizeConsistent) ∧
    ((VelloRenderer.new 5 320 200).1.sizeConsistent ∧
    ((VelloRenderer.new 0 640 480).1.resize 5 320 200).1.sizeConsistent ∧
    (VelloRenderer.new 0 640 480).1.renderParams.width =
      (VelloRenderer.new 0 640 480).1.render_texture.size.width ∧
    (VelloRenderer.new 0 640 480).1.renderParams.height =
      (VelloRenderer.new 0 640 480).1.render_texture.size.height ∧
    (VelloRenderer.new 0 640 480).1.readbackOps.copyExtent =
      (VelloRenderer.new 0 640 480).1.render_texture.size ∧
    (VelloRenderer.new 0 640 480).1.readbackOps.bytesPerRow =
      some (paddedByteWidth
        (VelloRenderer.new 0 640 480).1.render_texture.size.width) ∧
    (VelloRenderer.new 0 640 480).1.readbackOps.bufferSize =
      paddedByteWidth (VelloRenderer.new 0 640 480).1.render_texture.size.width *
        (VelloRenderer.new 0 640 480).1.render_texture.size.height ∧
    (beforeRendering none true false (initialAppState 640 480) 320 200).1.renderer.sizeConsistent) :=
  ⟨⟨⟨rfl, rfl⟩, ⟨rfl, rfl⟩⟩,
   size_consistency_invariant 5 320 200 (VelloRenderer.new 0 640 480).1
     (initialAppState 640 480) none true false ⟨rfl, rfl⟩ ⟨rfl, rfl⟩⟩

end SlintVello

namespace SlintVello

/-! ## C5 -/

theorem chunksGo_fuel (n : Nat) (hn : 0 < n) :
    ∀ f₁ f₂ (l : List Nat), l.length ≤ f₁ → l.length ≤ f₂ →
      chunksGo n f₁ l = chunksGo n f₂ l := by
  intro f₁
  induction f₁ with
  | zero =>
    intro f₂ l h1 _
    have hl : l = [] := List.length_eq_zero.mp (Nat.le_zero.mp h1)
    subst hl
    cases f₂ <;> rfl
  | succ f ih =>
    intro f₂ l h1 h2
    cases l with
    | nil => cases f₂ <;> rfl
    | cons x xs =>
      cases f₂ with
      | zero => simp at h2
      | succ g =>
        simp only [chunksGo]
        congr 1
        apply ih
        · simp only [List.length_drop, List.length_cons] at *
          omega
        · simp only [List.length_drop, List.length_cons] at *
          omega

theorem chunks_cons (n : Nat) (hn : 0 < n) (x : Nat) (xs : List Nat) :
    chunks n (x :: xs) = (x :: xs).take n :: chunks n ((x :: xs).drop n) := by
  unfold chunks
  simp only [List.length_cons, chunksGo]
  congr 1
  apply chunksGo_fuel n hn
  · simp only [List.length_drop, List.length_cons]
    omega
  · exact Nat.le_refl _

/-- The padded rows produced by `chunks`, each cut to its first `k` bytes
by the packing loop, assemble into a tightly packed image: total length
`h * k`, and the i-th output row is exactly bytes
`[i * n, i * n + k)` of the staging data. -/
theorem stripRows_spec (n k : Nat) (hn : 0 < n) (hk : k ≤ n) :
    ∀ (h : Nat) (data : List Nat), data.length = n * h →
      (stripRowsGo k (chunks n data)).length = h * k ∧
      ∀ i, i < h →
        ((stripRowsGo k (chunks n data)).drop (i * k)).take k =
          (data.drop (i * n)).take k := by
  intro h
  induction h with
  | zero =>
    intro data hdata
    have hd : data = [] := List.length_eq_zero.mp (by omega)
    subst hd
    exact ⟨by simp [chunks, chunksGo, stripRowsGo],
           fun i hi => absurd hi (Nat.not_lt_zero i)⟩
  | succ m ih =>
    intro data hdata
    have hms : n * (m + 1) = n * m + n := Nat.mul_succ n m
    obtain ⟨x, xs, rfl⟩ : ∃ x xs, data = x :: xs := by
      cases data with
      | nil =>
        exfalso
        simp only [List.length_nil] at hdata
        omega
      | cons a as => exact ⟨a, as, rfl⟩
    have hlen1 : xs.length + 1 = n * (m + 1) := by
      simpa using hdata
    rw [chunks_cons n hn]
    simp only [stripRowsGo]
    have hpre : ((x :: xs).take n).take k = (x :: xs).take k := by
      rw [List.take_take]
      congr 1
      exact Nat.min_eq_left hk
    have hdl : ((x :: xs).drop n).length = n * m := by
      simp only [List.length_drop, List.length_cons]
      omega
    obtain ⟨ihlen, ihrow⟩ := ih ((x :: xs).drop n) hdl
    have hprelen : (((x :: xs).take n).take k).length = k := by
      simp only [List.length_take, List.length_cons]
      omega
    constructor
    · rw [List.length_append, hprelen, ihlen, Nat.succ_mul, Nat.add_comm]
    · intro i hi
      cases i with
      | zero =>
        simp only [Nat.zero_mul, List.drop_zero]
        rw [List.take_append_eq_append_take, hprelen, Nat.sub_self,
            List.take_zero, List.append_nil, hpre, List.take_take,
            Nat.min_self]
      | succ j =>
        have hj : j < m := Nat.lt_of_succ_lt_succ hi
        have hidx : (j + 1) * k = (((x :: xs).take n).take k).length + j * k := by
          rw [hprelen, Nat.succ_mul, Nat.add_comm]
        have hidx2 : (j + 1) * n = n + j * n := by
          rw [Nat.succ_mul, Nat.add_comm]
        rw [hidx, List.drop_append, ihrow j hj, List.drop_drop, hidx2]

theorem le_paddedByteWidth (w : Nat) : w * 4 ≤ paddedByteWidth w := by
  unfold paddedByteWidth nextMultipleOf
  split <;> omega

/-- C5: for any renderer of positive size, a successful
`read_texture_data` returns a buffer of length exactly width*height*4 in
which output row i is bytes
[i * padded_byte_width, i * padded_byte_width + width*4) of the mapped
staging data — the per-row padding is stripped and no padding byte
reaches the output. -/
theorem readback_packing (r : VelloRenderer) (data : List Nat)
    (hw : 1 ≤ r.width) (hh : 1 ≤ r.height)
    (hdata : data.length = paddedByteWidth r.width * r.height) :
    ∃ out,
      r.read_texture_data (MapOutcome.delivered (Except.ok ())) data =
        Except.ok out ∧
      out.length = r.width * r.height * 4 ∧
      ∀ i, i < r.height →
        (out.drop (i * (r.width * 4))).take (r.width * 4) =
          (data.drop (i * paddedByteWidth r.width)).take (r.width * 4) := by
  have hk : r.width * 4 ≤ paddedByteWidth r.width := le_paddedByteWidth r.width
  have hn : 0 < paddedByteWidth r.width := by omega
  obtain ⟨hlen, hrow⟩ :=
    stripRows_spec (paddedByteWidth r.width) (r.width * 4) hn hk
      r.height data hdata
  exact ⟨_, rfl, by rw [hlen]; ring, hrow⟩

set_option maxRecDepth 8000 in
/-- C5 witness: a 1x1 renderer reading back one padded 256-byte row. -/
theorem readback_packing_witness :
    (1 ≤ (VelloRenderer.new 0 1 1).1.width ∧
     1 ≤ (VelloRenderer.new 0 1 1).1.height ∧
     (List.replicate 256 7).length =
       paddedByteWidth (VelloRenderer.new 0 1 1).1.width *
         (VelloRenderer.new 0 1 1).1.height) ∧
    ∃ out,
      (VelloRenderer.new 0 1 1).1.read_texture_data
          (MapOutcome.delivered (Except.ok ())) (List.replicate 256 7) =
        Except.ok out ∧
      out.length = (VelloRenderer.new 0 1 1).1.width *
        (VelloRenderer.new 0 1 1).1.height * 4 ∧
      ∀ i, i < (VelloRenderer.new 0 1 1).1.height →
        (out.drop (i * ((VelloRenderer.new 0 1 1).1.width * 4))).take
            ((VelloRenderer.new 0 1 1).1.width * 4) =
          ((List.replicate 256 7).drop
              (i * paddedByteWidth (VelloRenderer.new 0 1 1).1.width)).take
            ((VelloRenderer.new 0 1 1).1.width * 4) :=
  ⟨⟨by decide, by decide, by decide⟩,
   readback_packing (VelloRenderer.new 0 1 1).1 (List.replicate 256 7)
     (by decide) (by decide) (by decide)⟩

end SlintVello
